import Mathlib

set_option autoImplicit false

namespace FitnessApp

/-- A date value as it reaches the view logic of src/app.py. The MySQL
backend returns structured date objects for the DATE column, while the
SQLite backend stores entry_date as TEXT and returns the raw string; the
code at lines 158-162 branches on isinstance accordingly. -/
inductive DateVal where
  | dateObj (year month day : Nat)
  | rawStr (s : String)
deriving DecidableEq, Repr

/-- One fetched row of fitness_entries as used by index (src/app.py lines
111-123), as a record with the optional status key that the annotation
loop may add later. Numeric fields are absent or a valid number per the
component contract. -/
structure Entry where
  entry_date : DateVal
  weight : Option Rat := none
  calories : Option Int := none
  steps : Option Int := none
  status : Option String := none
deriving DecidableEq, Repr

/-- Status of one entry against a set goal, embedding the branch at
src/app.py lines 138-144: None calories give N/A, calories above the
goal give Over Goal, anything else gives Within Goal. -/
def statusFor (calorie_goal : Int) (calories : Option Int) : String :=
  match calories with
  | none => "N/A"
  | some c => if c > calorie_goal then "Over Goal" else "Within Goal"

/-- The annotation loops at src/app.py lines 136-147: with a goal set,
each entry gets its status from statusFor; with no goal, every entry
gets status N/A. -/
def annotate (entries : List Entry) (calorie_goal : Option Int) : List Entry :=
  match calorie_goal with
  | some goal => entries.map (fun e => { e with status := some (statusFor goal e.calories) })
  | none => entries.map (fun e => { e with status := some "N/A" })

/-- Decimal digits of a natural number, most significant first, with
explicit fuel; fuel n suffices because the argument shrinks by a factor
of ten each step. -/
def digitChar (r : Nat) : Char :=
  Char.ofNat (48 + r)

def natStrAux : Nat → Nat → List Char
  | 0, _ => []
  | _ + 1, 0 => []
  | fuel + 1, n + 1 => natStrAux fuel ((n + 1) / 10) ++ [digitChar ((n + 1) % 10)]

/-- Decimal rendering of a natural number, as Python str. -/
def natStr (n : Nat) : String :=
  if n = 0 then "0" else String.mk (natStrAux n n)

/-- Left zero padding to a given width, as strftime pads its numeric
fields. -/
def zfill (w : Nat) (s : String) : String :=
  String.mk (List.replicate (w - s.length) '0') ++ s

/-- strftime of a structured date with the format year-month-day where
the year is padded to four digits and month and day to two, embedding
the strftime call at src/app.py line 160. -/
def formatDate (y m d : Nat) : String :=
  zfill 4 (natStr y) ++ "-" ++ zfill 2 (natStr m) ++ "-" ++ zfill 2 (natStr d)

/-- The label computed for an entry date, embedding src/app.py lines
158-162 and 171-172: strftime for structured date values, str of the
value otherwise. -/
def dateLabel : DateVal → String
  | .dateObj y m d => formatDate y m d
  | .rawStr s => s

example : natStr 2024 = "2024" := by decide
example : formatDate 2024 1 3 = "2024-01-03" := by decide
example : dateLabel (DateVal.rawStr "2024-1-3") = "2024-1-3" := rfl

/-- Chart weight for one entry, embedding src/app.py line 165: the
numeric value when present, None as the explicit missing marker
otherwise. -/
def chartWeight (e : Entry) : Option Rat :=
  match e.weight with
  | some w => some w
  | none => none

/-- Python expression x or 0 on an optional integer, embedding lines
166-167: a falsy value, that is None or 0, yields 0; anything else
yields the value itself. -/
def pyOrZero (x : Option Int) : Int :=
  match x with
  | none => 0
  | some v => if v = 0 then 0 else v

/-- The four parallel chart arrays produced by the loop at src/app.py
lines 151-167. -/
structure ChartSeries where
  labels : List String
  weights : List (Option Rat)
  calories : List Int
  steps : List Int
deriving DecidableEq, Repr

/-- The chart-building loop at src/app.py lines 156-167: iterate the
entries reversed, appending to each array the label and the three
values of the entry. -/
def build_chart_series (entries : List Entry) : ChartSeries :=
  { labels := entries.reverse.map (fun e => dateLabel e.entry_date)
    weights := entries.reverse.map chartWeight
    calories := entries.reverse.map (fun e => pyOrZero e.calories)
    steps := entries.reverse.map (fun e => pyOrZero e.steps) }

/-- Lookup in a Python dict modelled as an insertion-ordered
association list: dict.get k returns the value at the unique binding of
k, or nothing. -/
def dictGet : List (String × Bool) → String → Option Bool
  | [], _ => none
  | p :: rest, k => if p.1 = k then some p.2 else dictGet rest k

/-- Assignment d[k] = v on a Python dict modelled as an
insertion-ordered association list: overwrite the binding in place when
the key exists, append it otherwise. -/
def dictSet : List (String × Bool) → String → Bool → List (String × Bool)
  | [], k, v => [(k, v)]
  | p :: rest, k, v => if p.1 = k then (k, v) :: rest else p :: dictSet rest k v

/-- The is_over test at src/app.py line 173: calories is present and
exceeds the goal. -/
def isOver (e : Entry) (goal : Int) : Bool :=
  match e.calories with
  | none => false
  | some c => decide (c > goal)

/-- One iteration of the flag loop at src/app.py lines 170-174:
over_goal_flags[key] = over_goal_flags.get(key, False) or is_over. -/
def flagStep (goal : Int) (m : List (String × Bool)) (e : Entry) : List (String × Bool) :=
  let key := dateLabel e.entry_date
  dictSet m key ((dictGet m key).getD false || isOver e goal)

/-- The over_goal_flags computation at src/app.py lines 150 and
169-174: starting from the empty dict, fold the flag step over the
entries when a goal is set; the dict stays empty otherwise. -/
def build_over_goal_flags (entries : List Entry) (calorie_goal : Option Int) : List (String × Bool) :=
  match calorie_goal with
  | some goal => entries.foldl (flagStep goal) []
  | none => []

/-- Everything index passes to the template (src/app.py lines 176-185)
that the core computes: annotated entries, flag dict and chart
arrays. -/
structure ViewModel where
  entries : List Entry
  over_goal_flags : List (String × Bool)
  chart : ChartSeries
deriving DecidableEq, Repr

/-- The whole core pipeline of index, src/app.py lines 136-185: the
annotation loops mutate the fetched entries, and the flag and chart
loops then run over those same annotated entries. -/
def index_core (entries : List Entry) (calorie_goal : Option Int) : ViewModel :=
  let annotated := annotate entries calorie_goal
  { entries := annotated
    over_goal_flags := build_over_goal_flags annotated calorie_goal
    chart := build_chart_series annotated }

/-- Form data of POST /add as request.form.get returns it: absent
fields are None (src/app.py lines 192-195). -/
structure AddForm where
  date : Option String := none
  weight : Option String := none
  calories : Option String := none
  steps : Option String := none
deriving DecidableEq, Repr

/-- Form data of POST /set_goal (src/app.py line 235). -/
structure GoalForm where
  calorie_goal : Option String := none
deriving DecidableEq, Repr

/-- One row of fitness_entries as inserted by add_entry: the raw form
strings (src/app.py lines 204-219). -/
structure StoredRow where
  entry_date : String
  weight : Option String := none
  calories : Option String := none
  steps : Option String := none
deriving DecidableEq, Repr

/-- The persistent store the handlers mutate: the fitness_entries rows
and the calorie_goal settings value. -/
structure Store where
  rows : List StoredRow := []
  goal_setting : Option String := none
deriving DecidableEq, Repr

/-- What a handler sends back: the flashed message with its category,
and the redirect to index that every path of add_entry and set_goal
issues. -/
structure Response where
  flash_message : String
  flash_category : String
  redirected_to_index : Bool
deriving DecidableEq, Repr

/-- Python truthiness test on an optional form string: None and the
empty string are falsy. -/
def isFalsy : Option String → Bool
  | none => true
  | some s => s.isEmpty

/-- Python expression x or None on an optional form string (src/app.py
lines 193-195): falsy values collapse to None. -/
def pyOrNone (x : Option String) : Option String :=
  if isFalsy x then none else x

/-- The add_entry handler, src/app.py lines 188-228: normalise the
optional fields, reject a falsy date with a flashed error and a
redirect before touching the store, otherwise insert the row and flash
success. -/
def add_entry (form : AddForm) (store : Store) : Store × Response :=
  let entry_date := form.date
  let weight := pyOrNone form.weight
  let calories := pyOrNone form.calories
  let steps := pyOrNone form.steps
  if isFalsy entry_date then
    (store,
     { flash_message := "Date is required.", flash_category := "error",
       redirected_to_index := true })
  else
    ({ store with
        rows := store.rows ++
          [{ entry_date := entry_date.getD "", weight := weight,
             calories := calories, steps := steps }] },
     { flash_message := "Entry added.", flash_category := "success",
       redirected_to_index := true })

/-- The set_goal handler, src/app.py lines 231-263: reject a falsy
calorie_goal with a flashed error and a redirect before touching the
store, otherwise delete the old setting and insert the new one, which
replaces the stored goal value. -/
def set_goal (form : GoalForm) (store : Store) : Store × Response :=
  let goal := form.calorie_goal
  if isFalsy goal then
    (store,
     { flash_message := "Calorie goal cannot be empty.", flash_category := "error",
       redirected_to_index := true })
  else
    ({ store with goal_setting := some (goal.getD "") },
     { flash_message := "Calorie goal updated.", flash_category := "success",
       redirected_to_index := true })

/-- Follows the words of the spec, for comparison with dateLabel: a
canonical zero-padded ISO calendar date string has exactly the shape of
four digits, a dash, two digits, a dash and two digits. -/
def canonicalDateChars : List Char → Bool
  | [y1, y2, y3, y4, c1, m1, m2, c2, d1, d2] =>
    [y1, y2, y3, y4].all Char.isDigit && c1 == '-' &&
      [m1, m2].all Char.isDigit && c2 == '-' && [d1, d2].all Char.isDigit
  | _ => false

/-- Follows the words of the spec: the canonical zero-padded ISO shape
test on a string. -/
def specCanonicalISO (s : String) : Bool :=
  canonicalDateChars s.data

example : specCanonicalISO "2024-01-03" = true := by decide
example : specCanonicalISO "2024-1-3" = false := by decide

/-- An entry with its status key removed; used to state what annotate
leaves untouched. -/
def eraseStatus (e : Entry) : Entry :=
  { e with status := none }

lemma chartWeight_eq (e : Entry) : chartWeight e = e.weight := by
  cases h : e.weight <;> simp [chartWeight, h]

lemma pyOrZero_eq (x : Option Int) : pyOrZero x = x.getD 0 := by
  cases x with
  | none => rfl
  | some v =>
    by_cases h : v = 0 <;> simp [pyOrZero, h]

/-- C1: annotate assigns status N/A exactly when the goal is unset or the
entry's calories value is unset; otherwise it assigns Over Goal iff the
calories exceed the goal and Within Goal otherwise, so calories equal to
the goal give Within Goal. -/
theorem annotate_status_spec (entries : List Entry) (calorie_goal : Option Int) :
    (annotate entries calorie_goal).map Entry.status
      = entries.map (fun e =>
          if calorie_goal = none ∨ e.calories = none then some "N/A"
          else if e.calories.getD 0 > calorie_goal.getD 0 then some "Over Goal"
          else some "Within Goal") := by
  cases calorie_goal with
  | none =>
    rw [annotate, List.map_map]
    apply List.map_congr_left
    intro e _
    simp [Function.comp]
  | some g =>
    rw [annotate, List.map_map]
    apply List.map_congr_left
    intro e _
    cases hc : e.calories with
    | none => simp [statusFor, hc, Function.comp]
    | some c =>
      simp [statusFor, hc, Function.comp]
      split <;> rfl

/-- C3: the four chart series all have the length of the input, the
labels are the input-order labels reversed, and index 0 of every series
is the value of the last, oldest entry of the newest-first input. -/
theorem build_chart_series_spec (entries : List Entry) :
    ((build_chart_series entries).labels.length = entries.length
      ∧ (build_chart_series entries).weights.length = entries.length
      ∧ (build_chart_series entries).calories.length = entries.length
      ∧ (build_chart_series entries).steps.length = entries.length)
    ∧ (build_chart_series entries).labels
        = (entries.map (fun e => dateLabel e.entry_date)).reverse
    ∧ (build_chart_series entries).labels.head?
        = (entries.getLast?).map (fun e => dateLabel e.entry_date)
    ∧ (build_chart_series entries).weights.head?
        = (entries.getLast?).map chartWeight
    ∧ (build_chart_series entries).calories.head?
        = (entries.getLast?).map (fun e => pyOrZero e.calories)
    ∧ (build_chart_series entries).steps.head?
        = (entries.getLast?).map (fun e => pyOrZero e.steps) := by
  refine ⟨⟨?_, ?_, ?_, ?_⟩, ?_, ?_, ?_, ?_, ?_⟩ <;>
    simp [build_chart_series, List.map_reverse]

/-- C5: the chart emits the weight value unchanged, with none as the
explicit missing marker distinct from zero, while absent calories and
steps are replaced by the number 0. -/
theorem chart_missing_policy (entries : List Entry) :
    (build_chart_series entries).weights = (entries.map Entry.weight).reverse
    ∧ (build_chart_series entries).calories
        = (entries.map (fun e => e.calories.getD 0)).reverse
    ∧ (build_chart_series entries).steps
        = (entries.map (fun e => e.steps.getD 0)).reverse := by
  refine ⟨?_, ?_, ?_⟩ <;>
    simp [build_chart_series, List.map_reverse, chartWeight_eq, pyOrZero_eq]

/-- C6: annotate keeps the length and order of its input and every
stored field of each entry, only setting the status field. -/
theorem annotate_frame (entries : List Entry) (calorie_goal : Option Int) :
    (annotate entries calorie_goal).length = entries.length
    ∧ (annotate entries calorie_goal).map eraseStatus = entries.map eraseStatus
    ∧ (annotate entries calorie_goal).all (fun e => e.status.isSome) = true := by
  refine ⟨?_, ?_, ?_⟩ <;> cases calorie_goal <;>
    simp [annotate, eraseStatus, List.map_map, Function.comp]

/-- C8: annotate is idempotent: annotating an already annotated snapshot
with the same goal yields the same output. -/
theorem annotate_idem (entries : List Entry) (calorie_goal : Option Int) :
    annotate (annotate entries calorie_goal) calorie_goal
      = annotate entries calorie_goal := by
  cases calorie_goal <;>
    simp [annotate, List.map_map, Function.comp]

lemma dictGet_dictSet_self (m : List (String × Bool)) (k : String) (v : Bool) :
    dictGet (dictSet m k v) k = some v := by
  induction m with
  | nil => simp [dictSet, dictGet]
  | cons p rest ih =>
    by_cases h : p.1 = k
    · simp [dictSet, dictGet, h]
    · simp [dictSet, dictGet, h, ih]

lemma dictGet_dictSet_ne (m : List (String × Bool)) (k k2 : String) (v : Bool)
    (h : k ≠ k2) : dictGet (dictSet m k v) k2 = dictGet m k2 := by
  induction m with
  | nil => simp [dictSet, dictGet, h]
  | cons p rest ih =>
    by_cases hp : p.1 = k
    · by_cases hq : p.1 = k2 <;> simp_all [dictSet, dictGet]
    · by_cases hq : p.1 = k2 <;> simp_all [dictSet, dictGet]

lemma any_label_over_false {es : List Entry} {g : Int} {lbl : String}
    (h : es.any (fun e => dateLabel e.entry_date == lbl) = false) :
    es.any (fun e => (dateLabel e.entry_date == lbl) && isOver e g) = false := by
  rw [List.any_eq_false] at h ⊢
  intro e he
  have := h e he
  simp_all

lemma flags_foldl_lookup (g : Int) (es : List Entry) (m : List (String × Bool))
    (lbl : String) :
    dictGet (es.foldl (flagStep g) m) lbl
      = if es.any (fun e => dateLabel e.entry_date == lbl)
        then some ((dictGet m lbl).getD false
            || es.any (fun e => (dateLabel e.entry_date == lbl) && isOver e g))
        else dictGet m lbl := by
  induction es generalizing m with
  | nil => simp
  | cons e es ih =>
    rw [List.foldl_cons, ih]
    by_cases hk : dateLabel e.entry_date = lbl
    · have hP : (dateLabel e.entry_date == lbl) = true := by simp [hk]
      have h1 : dictGet (flagStep g m e) lbl
          = some ((dictGet m lbl).getD false || isOver e g) := by
        simp only [flagStep]
        rw [hk, dictGet_dictSet_self]
      cases hA : es.any (fun e => dateLabel e.entry_date == lbl) with
      | false => simp [hP, hA, h1, any_label_over_false hA]
      | true => simp [hP, hA, h1, Bool.or_assoc]
    · have hP : (dateLabel e.entry_date == lbl) = false := by
        simp [hk]
      have h1 : dictGet (flagStep g m e) lbl = dictGet m lbl := by
        simp only [flagStep]
        exact dictGet_dictSet_ne _ _ _ _ hk
      simp [hP, h1]

/-- C2: with a goal set, the flag dict maps each date label occurring
among the entries to the OR, over all entries sharing that label, of
calories being present and exceeding the goal, and holds no other keys;
with the goal unset the dict is empty. -/
theorem over_goal_flags_spec (entries : List Entry) (g : Int) (lbl : String) :
    dictGet (build_over_goal_flags entries (some g)) lbl
        = (if entries.any (fun e => dateLabel e.entry_date == lbl)
           then some (entries.any
              (fun e => (dateLabel e.entry_date == lbl) && isOver e g))
           else none)
    ∧ build_over_goal_flags entries none = [] := by
  constructor
  · have h := flags_foldl_lookup g entries [] lbl
    simpa [build_over_goal_flags, dictGet] using h
  · rfl

/-- C10: an entry whose calories field is present with value 0 is
classified by the numeric comparison for every set goal, because
presence of the field rather than its truthiness selects the N/A
branch: the status is Over Goal when the goal is negative and Within
Goal otherwise, and is never N/A. -/
theorem annotate_zero_calories (entries : List Entry) (g : Int) (i : Nat)
    (hc : (entries[i]?).map Entry.calories = some (some 0)) :
    ((annotate entries (some g))[i]?).map Entry.status
        = some (some (if 0 > g then "Over Goal" else "Within Goal"))
    ∧ ((annotate entries (some g))[i]?).map Entry.status ≠ some (some "N/A") := by
  obtain ⟨e, he, hce⟩ : ∃ e, entries[i]? = some e ∧ e.calories = some 0 := by
    cases h : entries[i]? with
    | none => simp [h] at hc
    | some e =>
      refine ⟨e, rfl, ?_⟩
      simpa [h] using hc
  have hs : ((annotate entries (some g))[i]?).map Entry.status
      = some (some (if 0 > g then "Over Goal" else "Within Goal")) := by
    simp [annotate, List.getElem?_map, he, statusFor, hce]
  refine ⟨hs, ?_⟩
  rw [hs]
  split <;> decide

/-- Witness for C10 at one concrete entry with calories 0 and goal
2000. -/
theorem annotate_zero_calories_witness :
    (((annotate [⟨DateVal.rawStr "2024-01-01", none, some 0, none, none⟩]
          (some 2000))[0]?).map Entry.status
        = some (some (if (0 : Int) > 2000 then "Over Goal" else "Within Goal")))
    ∧ ((annotate [⟨DateVal.rawStr "2024-01-01", none, some 0, none, none⟩]
          (some 2000))[0]?).map Entry.status ≠ some (some "N/A") :=
  annotate_zero_calories
    [⟨DateVal.rawStr "2024-01-01", none, some 0, none, none⟩]
    2000 0 (by decide)

example :
    (((annotate [⟨DateVal.rawStr "2024-01-01", none, some 0, none, none⟩]
          (some (-100)))[0]?).map Entry.status = some (some "Over Goal")) := by
  decide

lemma digitChar_isDigit {r : Nat} (h : r < 10) : (digitChar r).isDigit = true := by
  interval_cases r <;> decide

lemma natStrAux_digits (fuel n : Nat) : (natStrAux fuel n).all Char.isDigit = true := by
  induction fuel generalizing n with
  | zero => rfl
  | succ fuel ih =>
    cases n with
    | zero => rfl
    | succ j =>
      rw [natStrAux, List.all_append]
      simp [ih, digitChar_isDigit (Nat.mod_lt _ (by norm_num))]

lemma natStrAux_length (fuel n k : Nat) (h : n < 10 ^ k) :
    (natStrAux fuel n).length ≤ k := by
  induction fuel generalizing n k with
  | zero => simp [natStrAux]
  | succ fuel ih =>
    cases n with
    | zero => simp [natStrAux]
    | succ j =>
      rw [natStrAux, List.length_append]
      cases k with
      | zero =>
        rw [pow_zero] at h
        omega
      | succ k =>
        have hd : (j + 1) / 10 < 10 ^ k := by
          rw [Nat.div_lt_iff_lt_mul (by norm_num)]
          calc j + 1 < 10 ^ (k + 1) := h
            _ = 10 ^ k * 10 := by rw [pow_succ]
        have hx := ih ((j + 1) / 10) k hd
        simp only [List.length_cons, List.length_nil]
        omega

lemma natStr_digits (n : Nat) : (natStr n).data.all Char.isDigit = true := by
  rw [natStr]
  by_cases h : n = 0
  · rw [if_pos h]
    decide
  · rw [if_neg h]
    exact natStrAux_digits n n

lemma natStr_length_le {n k : Nat} (h1 : 1 ≤ k) (h2 : n < 10 ^ k) :
    (natStr n).length ≤ k := by
  rw [natStr]
  by_cases h : n = 0
  · rw [if_pos h]
    simpa using h1
  · rw [if_neg h]
    have hx := natStrAux_length n n k h2
    simpa [String.length] using hx

lemma zfill_data (w : Nat) (s : String) :
    (zfill w s).data = List.replicate (w - s.length) '0' ++ s.data := by
  rw [zfill, String.data_append]

lemma zfill_length (w : Nat) (s : String) (h : s.length ≤ w) :
    (zfill w s).data.length = w := by
  rw [zfill_data, List.length_append, List.length_replicate]
  have hx : s.length = s.data.length := rfl
  omega

lemma zfill_digits (w : Nat) (s : String)
    (h : s.data.all Char.isDigit = true) :
    (zfill w s).data.all Char.isDigit = true := by
  rw [zfill_data, List.all_append, h]
  have hr : (List.replicate (w - s.length) '0').all Char.isDigit = true := by
    rw [List.all_eq_true]
    intro c hc
    rw [List.mem_replicate] at hc
    rw [hc.2]
    decide
  rw [hr]
  rfl

lemma length_four_chars {l : List Char} (h : l.length = 4) :
    ∃ a b c d, l = [a, b, c, d] := by
  rcases l with _ | ⟨a, l⟩
  · simp at h
  rcases l with _ | ⟨b, l⟩
  · simp at h
  rcases l with _ | ⟨c, l⟩
  · simp at h
  rcases l with _ | ⟨d, l⟩
  · simp at h
  rcases l with _ | ⟨e, l⟩
  · exact ⟨a, b, c, d, rfl⟩
  · simp at h

lemma length_two_chars {l : List Char} (h : l.length = 2) :
    ∃ a b, l = [a, b] := by
  rcases l with _ | ⟨a, l⟩
  · simp at h
  rcases l with _ | ⟨b, l⟩
  · simp at h
  rcases l with _ | ⟨c, l⟩
  · exact ⟨a, b, rfl⟩
  · simp at h

lemma canonicalDateChars_parts {l1 l2 l3 : List Char}
    (h1 : l1.length = 4) (h2 : l2.length = 2) (h3 : l3.length = 2)
    (d1 : l1.all Char.isDigit = true) (d2 : l2.all Char.isDigit = true)
    (d3 : l3.all Char.isDigit = true) :
    canonicalDateChars (l1 ++ '-' :: (l2 ++ '-' :: l3)) = true := by
  obtain ⟨a, b, c, d, rfl⟩ := length_four_chars h1
  obtain ⟨e, f, rfl⟩ := length_two_chars h2
  obtain ⟨g, i, rfl⟩ := length_two_chars h3
  simp_all [canonicalDateChars]

lemma dictSet_keys_all (P : String → Bool) (m : List (String × Bool))
    (k : String) (v : Bool)
    (hm : (m.map Prod.fst).all P = true) (hk : P k = true) :
    ((dictSet m k v).map Prod.fst).all P = true := by
  induction m with
  | nil => simp [dictSet, hk]
  | cons p rest ih =>
    rw [List.map_cons, List.all_cons, Bool.and_eq_true] at hm
    by_cases h : p.1 = k
    · simp [dictSet, h, hk, hm.2]
    · simp [dictSet, h, hm.1, ih hm.2]

lemma flags_keys_all (g : Int) (P : String → Bool) (es : List Entry) :
    ∀ m, es.all (fun e => P (dateLabel e.entry_date)) = true →
      (m.map Prod.fst).all P = true →
      ((es.foldl (flagStep g) m).map Prod.fst).all P = true := by
  induction es with
  | nil =>
    intro m _ hm
    simpa using hm
  | cons e es ih =>
    intro m hes hm
    rw [List.all_cons, Bool.and_eq_true] at hes
    rw [List.foldl_cons]
    refine ih _ hes.2 ?_
    simp only [flagStep]
    exact dictSet_keys_all P m _ _ hm hes.1

/-- C4 counterexample: an entry whose stored date is the raw string
2024-1-3 reaches the chart labels unchanged, and that label does not
have the canonical zero-padded ISO shape, refuting the claim for every
entry. -/
theorem chart_label_not_canonical :
    (build_chart_series [⟨DateVal.rawStr "2024-1-3", none, none, none, none⟩]).labels
        = ["2024-1-3"]
    ∧ specCanonicalISO "2024-1-3" = false :=
  ⟨rfl, by decide⟩

/-- C4 amended: every chart label is the dateLabel of its entry and
every flag key is the dateLabel of some entry; for an entry whose date
is a structured date value with year at most 9999 and month and day at
most 99, that label is the zero-padded YYYY-MM-DD rendering, which has
the canonical ISO shape; for an entry whose date is a raw string, the
label is that string unchanged. -/
theorem chart_label_spec (entries : List Entry) (goal : Int) (y m d : Nat)
    (s : String) (hy : y ≤ 9999) (hm : m ≤ 99) (hd : d ≤ 99) :
    (build_chart_series entries).labels
        = (entries.map (fun e => dateLabel e.entry_date)).reverse
    ∧ ((build_over_goal_flags entries (some goal)).map Prod.fst).all
        (fun k => entries.any (fun e => dateLabel e.entry_date == k)) = true
    ∧ dateLabel (DateVal.dateObj y m d) = formatDate y m d
    ∧ specCanonicalISO (formatDate y m d) = true
    ∧ dateLabel (DateVal.rawStr s) = s := by
  refine ⟨by simp [build_chart_series, List.map_reverse], ?_, rfl, ?_, rfl⟩
  · rw [build_over_goal_flags]
    apply flags_keys_all
    · rw [List.all_eq_true]
      intro e he
      rw [List.any_eq_true]
      exact ⟨e, he, by simp⟩
    · rfl
  · rw [specCanonicalISO]
    have hdash : ("-" : String).data = ['-'] := rfl
    have hyd : (formatDate y m d).data
        = (zfill 4 (natStr y)).data
            ++ '-' :: ((zfill 2 (natStr m)).data
                ++ '-' :: (zfill 2 (natStr d)).data) := by
      rw [formatDate]
      simp [String.data_append, hdash, List.append_assoc]
    rw [hyd]
    apply canonicalDateChars_parts
    · exact zfill_length 4 _
        (natStr_length_le (by norm_num) (lt_of_le_of_lt hy (by norm_num)))
    · exact zfill_length 2 _
        (natStr_length_le (by norm_num) (lt_of_le_of_lt hm (by norm_num)))
    · exact zfill_length 2 _
        (natStr_length_le (by norm_num) (lt_of_le_of_lt hd (by norm_num)))
    · exact zfill_digits 4 _ (natStr_digits y)
    · exact zfill_digits 2 _ (natStr_digits m)
    · exact zfill_digits 2 _ (natStr_digits d)

/-- Witness for the amended C4 at one structured date and one raw
string date. -/
theorem chart_label_spec_witness :
    (build_chart_series [⟨DateVal.dateObj 2024 1 3, none, some 2500, none, none⟩]).labels
        = (([⟨DateVal.dateObj 2024 1 3, none, some 2500, none, none⟩] : List Entry).map
            (fun e => dateLabel e.entry_date)).reverse
    ∧ (((build_over_goal_flags
          [⟨DateVal.dateObj 2024 1 3, none, some 2500, none, none⟩]
          (some 2000)).map Prod.fst).all
        (fun k => ([⟨DateVal.dateObj 2024 1 3, none, some 2500, none, none⟩] : List Entry).any
            (fun e => dateLabel e.entry_date == k)) = true)
    ∧ dateLabel (DateVal.dateObj 2024 1 3) = formatDate 2024 1 3
    ∧ specCanonicalISO (formatDate 2024 1 3) = true
    ∧ dateLabel (DateVal.rawStr "2024-01-05") = "2024-01-05" :=
  chart_label_spec [⟨DateVal.dateObj 2024 1 3, none, some 2500, none, none⟩]
    2000 2024 1 3 "2024-01-05" (by decide) (by decide) (by decide)

/-- C7: the core pipeline is total over its documented input domain: on
any snapshot of at most 30 entries whose fields are absent or a valid
number, with any optional goal, it produces a view model whose
components all have the expected lengths, reaching no error branch. -/
theorem index_core_total (entries : List Entry) (calorie_goal : Option Int)
    (h : entries.length ≤ 30) :
    ∃ vm : ViewModel, index_core entries calorie_goal = vm
      ∧ vm.entries.length = entries.length
      ∧ vm.chart.labels.length = entries.length
      ∧ vm.chart.weights.length = entries.length
      ∧ vm.chart.calories.length = entries.length
      ∧ vm.chart.steps.length = entries.length := by
  refine ⟨index_core entries calorie_goal, rfl, ?_, ?_, ?_, ?_, ?_⟩ <;>
    cases calorie_goal <;>
      simp [index_core, annotate, build_chart_series]

/-- Witness for C7 at one concrete snapshot. -/
theorem index_core_total_witness :
    ([⟨DateVal.dateObj 2024 1 3, none, some 2200, none, none⟩] : List Entry).length ≤ 30
    ∧ ∃ vm : ViewModel,
        index_core [⟨DateVal.dateObj 2024 1 3, none, some 2200, none, none⟩]
            (some 2000) = vm
        ∧ vm.entries.length
            = ([⟨DateVal.dateObj 2024 1 3, none, some 2200, none, none⟩] : List Entry).length
        ∧ vm.chart.labels.length
            = ([⟨DateVal.dateObj 2024 1 3, none, some 2200, none, none⟩] : List Entry).length
        ∧ vm.chart.weights.length
            = ([⟨DateVal.dateObj 2024 1 3, none, some 2200, none, none⟩] : List Entry).length
        ∧ vm.chart.calories.length
            = ([⟨DateVal.dateObj 2024 1 3, none, some 2200, none, none⟩] : List Entry).length
        ∧ vm.chart.steps.length
            = ([⟨DateVal.dateObj 2024 1 3, none, some 2200, none, none⟩] : List Entry).length :=
  ⟨by decide,
    index_core_total [⟨DateVal.dateObj 2024 1 3, none, some 2200, none, none⟩]
      (some 2000) (by decide)⟩

/-- C9: POST /add with a missing date and POST /set_goal with a missing
calorie_goal flash a user-visible error message and redirect to index
with the store left unchanged. -/
theorem validation_error_no_mutation (store : Store) (af : AddForm)
    (gf : GoalForm) (ha : af.date = none) (hg : gf.calorie_goal = none) :
    (add_entry af store).1 = store
    ∧ (add_entry af store).2 = ⟨"Date is required.", "error", true⟩
    ∧ (set_goal gf store).1 = store
    ∧ (set_goal gf store).2 = ⟨"Calorie goal cannot be empty.", "error", true⟩ := by
  refine ⟨?_, ?_, ?_, ?_⟩ <;> simp [add_entry, set_goal, ha, hg, isFalsy]

/-- Witness for C9 at one concrete store and concrete forms. -/
theorem validation_error_no_mutation_witness :
    (add_entry ⟨none, some "70", none, none⟩ ⟨[], none⟩).1 = (⟨[], none⟩ : Store)
    ∧ (add_entry ⟨none, some "70", none, none⟩ ⟨[], none⟩).2
        = ⟨"Date is required.", "error", true⟩
    ∧ (set_goal ⟨none⟩ ⟨[], none⟩).1 = (⟨[], none⟩ : Store)
    ∧ (set_goal ⟨none⟩ ⟨[], none⟩).2
        = ⟨"Calorie goal cannot be empty.", "error", true⟩ :=
  validation_error_no_mutation ⟨[], none⟩ ⟨none, some "70", none, none⟩ ⟨none⟩
    rfl rfl

example :
    (annotate [⟨DateVal.rawStr "2024-01-03", none, some 2200, none, none⟩,
        ⟨DateVal.rawStr "2024-01-02", none, some 1800, none, none⟩,
        ⟨DateVal.rawStr "2024-01-01", none, none, none, none⟩]
      (some 2000)).map Entry.status
      = [some "Over Goal", some "Within Goal", some "N/A"] := by decide

example :
    build_over_goal_flags [⟨DateVal.rawStr "2024-01-03", none, some 2200, none, none⟩,
        ⟨DateVal.rawStr "2024-01-02", none, some 1800, none, none⟩,
        ⟨DateVal.rawStr "2024-01-01", none, none, none, none⟩]
      (some 2000)
      = [("2024-01-03", true), ("2024-01-02", false), ("2024-01-01", false)] := by
  decide

example :
    build_over_goal_flags [⟨DateVal.rawStr "2024-02-01", none, some 2500, none, none⟩,
        ⟨DateVal.rawStr "2024-02-01", none, some 1000, none, none⟩]
      (some 2000)
      = [("2024-02-01", true)] := by
  decide

example :
    (annotate [⟨DateVal.rawStr "2024-01-01", none, some 1500, none, none⟩] none).map
        Entry.status = [some "N/A"]
    ∧ build_over_goal_flags [⟨DateVal.rawStr "2024-01-01", none, some 1500, none, none⟩]
        none = [] := by
  constructor <;> decide

end FitnessApp
